import Mathlib

/-!
Verification of the deadline reminder scheduler of the CRM application
(`app.py`): timezone handling, threshold-window classification, sent-flag
bookkeeping, cycle/loop behaviour, the singleton startup guard, and the
Telegram send function.  All definitions are shallow embeddings of the
corresponding Python functions; machine reals (Python floats used for
`minutes_left`) are modelled by `Rat`.
-/

namespace CRM

/-- Status column of the `tasks` table: `CHECK(status IN ('pending','completed'))`. -/
inductive TaskStatus
  | pending
  | completed
deriving DecidableEq, Repr

/-- A Python `datetime`: a naive wall-clock reading plus an optional fixed
UTC offset (`tzinfo`), both in minutes.  `tzOffset = none` models a naive
datetime. -/
structure PyDateTime where
  wall : Rat
  tzOffset : Option Int
deriving DecidableEq, Repr

/-- The fixed zone `UZB_TIMEZONE = timezone(timedelta(hours=5))`, as minutes east of UTC. -/
def UZB_TZ_OFFSET_MINUTES : Int := 5 * 60

/-- The coercion `deadline.replace(tzinfo=UZB_TIMEZONE)` applied only when
`deadline.tzinfo is None`, as in `check_reminders` and `is_overdue`. -/
def replaceTzIfNaive (d : PyDateTime) : PyDateTime :=
  match d.tzOffset with
  | none => { d with tzOffset := some UZB_TZ_OFFSET_MINUTES }
  | some _ => d

/-- Absolute (UTC) time of an aware datetime, in minutes: wall reading minus
the zone offset.  Subtraction of two aware datetimes in Python compares these
absolute instants. -/
def absMinutes (d : PyDateTime) : Rat :=
  d.wall - (d.tzOffset.getD 0 : Int)

/-- The quantity `minutes_left = (deadline - now).total_seconds() / 60` from
`check_reminders`, where `now = get_uzb_now()` is passed as its absolute
time `nowAbs` in minutes and a naive deadline is first coerced to the
UZB zone. -/
def minutesLeft (deadline : PyDateTime) (nowAbs : Rat) : Rat :=
  absMinutes (replaceTzIfNaive deadline) - nowAbs

/-- Alternative reading that the spec rules out, for comparison: interpret a
timezone-less deadline in the host's local zone (offset `hostOffset` minutes)
instead of the fixed UTC+5 zone. -/
def minutesLeftHostZone (hostOffset : Int) (d : PyDateTime) (nowAbs : Rat) : Rat :=
  (d.wall - ((d.tzOffset.getD hostOffset : Int) : Rat)) - nowAbs

/-- The predicate `is_overdue(deadline)` from `app.py`: `None` is never overdue; a naive
deadline is coerced to the UZB zone, then compared with `now`. -/
def is_overdue (deadline : Option PyDateTime) (nowAbs : Rat) : Bool :=
  match deadline with
  | none => false
  | some d => decide (absMinutes (replaceTzIfNaive d) < nowAbs)

/-- A row of the `tasks` table joined with the assignee's
`telegram_chat_id` (the shape `check_reminders` reads). -/
structure Task where
  id : Nat
  title : String
  description : Option String
  assigned_to : Option Nat
  deadline : Option PyDateTime
  status : TaskStatus
  completion_note : Option String
  completed_at : Option PyDateTime
  telegram_chat_id : Option String
  reminder_2h_sent : Bool
  reminder_30m_sent : Bool
  reminder_5m_sent : Bool
deriving DecidableEq, Repr

/-- The three reminder thresholds checked by `check_reminders`. -/
inductive Threshold
  | t2h
  | t30m
  | t5m
deriving DecidableEq, Repr

/-- The sent-flag of a task for a given threshold. -/
def getFlag (t : Task) : Threshold → Bool
  | .t2h => t.reminder_2h_sent
  | .t30m => t.reminder_30m_sent
  | .t5m => t.reminder_5m_sent

/-- Select the flag for a threshold out of the three flag booleans. -/
def flagSel : Threshold → Bool → Bool → Bool → Bool
  | .t2h, b2, _, _ => b2
  | .t30m, _, b30, _ => b30
  | .t5m, _, _, b5 => b5

/-- The update `UPDATE tasks SET reminder_*_sent = 1` for the given threshold. -/
def setFlag (t : Task) : Threshold → Task
  | .t2h => { t with reminder_2h_sent := true }
  | .t30m => { t with reminder_30m_sent := true }
  | .t5m => { t with reminder_5m_sent := true }

/-- The window conditions of `check_reminders`:
`115 <= minutes_left <= 125`, `25 <= minutes_left <= 35`,
`3 <= minutes_left <= 7`. -/
def inWindow : Threshold → Rat → Bool
  | .t2h, m => decide (115 ≤ m ∧ m ≤ 125)
  | .t30m, m => decide (25 ≤ m ∧ m ≤ 35)
  | .t5m, m => decide (3 ≤ m ∧ m ≤ 7)

/-- The threshold-specific message templates of `check_reminders`. -/
def messageFor (T : Threshold) (title : String) : String :=
  match T with
  | .t2h => "⏰ <b>Eslatma!</b>\n\n📋 " ++ title ++ "\n⏳ Muddat: 2 soatdan kam qoldi!"
  | .t30m => "⚠️ <b>Shoshiling!</b>\n\n📋 " ++ title ++ "\n⏳ Muddat: 30 daqiqadan kam qoldi!"
  | .t5m => "🚨 <b>DIQQAT!</b>\n\n📋 " ++ title ++ "\n⏳ Muddat: 5 daqiqadan kam qoldi!"

/-- The `if / elif / elif` chain of `check_reminders`: windows are tried in
the fixed order 2h, 30m, 5m, each guarded by `and not task['reminder_*_sent']`;
the first hit is the candidate threshold of this cycle. -/
def classify (m : Rat) (b2 b30 b5 : Bool) : Option Threshold :=
  if inWindow .t2h m && !b2 then some .t2h
  else if inWindow .t30m m && !b30 then some .t30m
  else if inWindow .t5m m && !b5 then some .t5m
  else none

/-- One invocation of the notification channel, as observed from outside:
which task, which threshold, destination, message text, and whether `send`
returned true. -/
structure SendEvent where
  taskId : Nat
  threshold : Threshold
  chatId : String
  message : String
  ok : Bool
deriving DecidableEq, Repr

/-- Environment of one scan cycle: the notification channel (outcome of
`send_telegram_message` per destination and message) and the absolute
current time `get_uzb_now()` in minutes. -/
structure CycleEnv where
  send : String → String → Bool
  nowAbs : Rat

/-- The per-task body of the `for task in tasks` loop of `check_reminders`
(error-free path): skip when deadline or chat id is falsy, compute
`minutes_left`, classify, attempt at most one send, and set the matching
flag only when `send` returned true. -/
def processTask (env : CycleEnv) (t : Task) : Task × List SendEvent :=
  match t.deadline, t.telegram_chat_id with
  | some dl, some chat =>
    if chat = "" then (t, [])
    else
      let m := minutesLeft dl env.nowAbs
      match classify m t.reminder_2h_sent t.reminder_30m_sent t.reminder_5m_sent with
      | some T =>
        let msg := messageFor T t.title
        let ok := env.send chat msg
        ((if ok then setFlag t T else t), [⟨t.id, T, chat, msg, ok⟩])
      | none => (t, [])
  | _, _ => (t, [])

/-- The `WHERE t.status = 'pending' AND t.deadline IS NOT NULL` filter of
the cycle's SELECT. -/
def eligible (t : Task) : Bool :=
  decide (t.status = TaskStatus.pending) && t.deadline.isSome

/-- Effect of one scan cycle on a single task: tasks not matched by the
SELECT are untouched. -/
def stepTask (env : CycleEnv) (t : Task) : Task × List SendEvent :=
  if eligible t then processTask env t else (t, [])

/-- One full scan cycle of `check_reminders` over the task table
(error-free path): every task is processed independently; the trace of
send invocations is collected in task order. -/
def runCycle (env : CycleEnv) (tasks : List Task) : List Task × List SendEvent :=
  (tasks.map (fun t => (stepTask env t).1),
   (tasks.map (fun t => (stepTask env t).2)).flatten)

/-- A single task followed through any number of scan cycles, each with its
own current time and channel behaviour. -/
def runTask : List CycleEnv → Task → Task × List SendEvent
  | [], t => (t, [])
  | e :: es, t =>
    ((runTask es (stepTask e t).1).1,
     (stepTask e t).2 ++ (runTask es (stepTask e t).1).2)

/-- Number of send invocations for a threshold in a trace. -/
def countT (T : Threshold) (evs : List SendEvent) : Nat :=
  evs.countP (fun ev => decide (ev.threshold = T))

/-- Number of failed send invocations for a threshold in a trace. -/
def countTFail (T : Threshold) (evs : List SendEvent) : Nat :=
  evs.countP (fun ev => decide (ev.threshold = T) && !ev.ok)

/-- Number of successful send invocations for a threshold in a trace. -/
def countTSucc (T : Threshold) (evs : List SendEvent) : Nat :=
  evs.countP (fun ev => decide (ev.threshold = T) && ev.ok)

/-- The constant `TELEGRAM_AVAILABLE = True` (set unconditionally at import). -/
def TELEGRAM_AVAILABLE : Bool := true

/-- The function `send_telegram_message(chat_id, message)` with the configured bot token
made explicit and the HTTP POST abstracted: `post` returns the response
status code, or `none` when the request raises.  The second component counts
network requests actually attempted.  The guard mirrors
`if not TELEGRAM_BOT_TOKEN or not chat_id or not TELEGRAM_AVAILABLE: return False`;
otherwise the result is `response.status_code == 200`, with any exception
caught and turned into `False`. -/
def send_telegram_message (token : String) (post : String → String → Option Nat)
    (chat_id message : String) : Bool × Nat :=
  if token = "" ∨ chat_id = "" ∨ TELEGRAM_AVAILABLE = false then (false, 0)
  else
    match post chat_id message with
    | some status => (decide (status = 200), 1)
    | none => (false, 1)

/-- The notification channel as the scheduler sees it: the boolean result of
`send_telegram_message` for a given token and network. -/
def sendVia (token : String) (post : String → String → Option Nat) :
    String → String → Bool :=
  fun chat msg => (send_telegram_message token post chat msg).1

/-- Cycle environment extended with store failures: `readFails` makes the
SELECT raise, `writeFails i` makes the flag UPDATE for task id `i` raise. -/
structure CycleEnvE where
  send : String → String → Bool
  nowAbs : Rat
  readFails : Bool
  writeFails : Nat → Bool

/-- Forget the failure information of an extended environment. -/
def toEnv (e : CycleEnvE) : CycleEnv :=
  ⟨e.send, e.nowAbs⟩

/-- Per-task body of `check_reminders` with store-write failures: the send
(if any) happens first, so its event is observed even when the subsequent
`UPDATE` raises; `none` in the second component means the task body raised. -/
def processTaskE (env : CycleEnvE) (t : Task) : List SendEvent × Option Task :=
  match t.deadline, t.telegram_chat_id with
  | some dl, some chat =>
    if chat = "" then ([], some t)
    else
      let m := minutesLeft dl env.nowAbs
      match classify m t.reminder_2h_sent t.reminder_30m_sent t.reminder_5m_sent with
      | some T =>
        let msg := messageFor T t.title
        let ok := env.send chat msg
        let ev : SendEvent := ⟨t.id, T, chat, msg, ok⟩
        if ok then
          if env.writeFails t.id then ([ev], none)
          else ([ev], some (setFlag t T))
        else ([ev], some t)
      | none => ([], some t)
  | _, _ => ([], some t)

/-- One task of the cycle with the SELECT filter, failure-aware. -/
def stepTaskE (env : CycleEnvE) (t : Task) : List SendEvent × Option Task :=
  if eligible t then processTaskE env t else ([], some t)

/-- The `for task in tasks` loop inside the cycle's `try`: tasks are
processed in order; the first exception aborts the loop, leaving the
remaining tasks unprocessed.  Returns (tasks as updated so far, events,
aborted flag). -/
def cycleBody (env : CycleEnvE) : List Task → List Task × List SendEvent × Bool
  | [] => ([], [], false)
  | t :: ts =>
    match stepTaskE env t with
    | (evs, some t1) =>
      let r := cycleBody env ts
      (t1 :: r.1, evs ++ r.2.1, r.2.2)
    | (evs, none) => (t :: ts, evs, true)

/-- One iteration of the `while True` body: the whole cycle runs inside one
`try`.  On any exception (SELECT failure, or a task body raising) the
`except` catches and logs it; `conn.commit()` is never reached, so all flag
updates of the aborted cycle are discarded and the task table is left as it
was.  The boolean records that an error was caught and logged. -/
def runCycleE (env : CycleEnvE) (tasks : List Task) :
    List Task × List SendEvent × Bool :=
  if env.readFails then (tasks, [], true)
  else
    let r := cycleBody env tasks
    if r.2.2 then (tasks, r.2.1, true) else (r.1, r.2.1, false)

/-- The scan loop run for a prescribed list of cycles: each cycle produces
its trace and error flag, and the loop always proceeds to the next cycle. -/
def runLoopE : List CycleEnvE → List Task → List Task × List (List SendEvent × Bool)
  | [], tasks => (tasks, [])
  | e :: es, tasks =>
    let r := runCycleE e tasks
    let rest := runLoopE es r.1
    (rest.1, (r.2.1, r.2.2) :: rest.2)

/-- State shared by callers of `start_reminder_thread`: the module-level
`reminder_thread_started` boolean, plus a ghost counter of scheduler loops
actually started (`thread.start()` calls). -/
structure GuardState where
  reminder_thread_started : Bool
  loopsStarted : Nat
deriving DecidableEq, Repr

/-- The critical section of `start_reminder_thread`, executed under
`reminder_lock`: check the started boolean, start the thread and set the
boolean only when it was false.  The lock serialises concurrent callers, so
each call is one atomic application of this function. -/
def start_reminder_thread (s : GuardState) : GuardState :=
  if s.reminder_thread_started = false then
    { reminder_thread_started := true, loopsStarted := s.loopsStarted + 1 }
  else s

/-- Process start: thread not started, no loops running. -/
def guardInit : GuardState :=
  { reminder_thread_started := false, loopsStarted := 0 }

/-- The POST form of `edit_task`, together with the `telegram_chat_id` of
the newly assigned user (the scheduler reads it through the join). -/
structure EditForm where
  title : String
  description : Option String
  assigned_to : Nat
  deadline : Option PyDateTime
  new_chat_id : Option String

/-- The update `UPDATE tasks SET title = ?, description = ?, assigned_to = ?, deadline = ?`
from `edit_task`: the three reminder flags are not in the column list. -/
def edit_task (f : EditForm) (t : Task) : Task :=
  { t with
    title := f.title
    description := f.description
    assigned_to := some f.assigned_to
    deadline := f.deadline
    telegram_chat_id := f.new_chat_id }

/-- The update `UPDATE tasks SET status = ?, completion_note = ?, completed_at = ?`
from `complete_task`. -/
def complete_task (note : Option String) (completedAt : PyDateTime) (t : Task) : Task :=
  { t with
    status := TaskStatus.completed
    completion_note := note
    completed_at := some completedAt }

/-- The operations that can touch an existing task record: a scheduler
cycle, an edit, or completion.  Deleting and re-creating produce a new
record and are outside a record's lifetime. -/
inductive TaskOp
  | reminderCycle (env : CycleEnv)
  | edit (f : EditForm)
  | complete (note : Option String) (completedAt : PyDateTime)

/-- Apply one operation to a task record. -/
def applyOp (t : Task) : TaskOp → Task
  | .reminderCycle env => (stepTask env t).1
  | .edit f => edit_task f t
  | .complete note completedAt => complete_task note completedAt t

/-- Apply a sequence of operations, oldest first. -/
def applyOps (t : Task) (ops : List TaskOp) : Task :=
  ops.foldl applyOp t

/-- A pending task with id 0, a deadline 120 minutes after the reference
instant 0, a valid chat id and clear flags. -/
def exTask0 : Task :=
  { id := 0, title := "hisobot", description := none, assigned_to := some 2
    deadline := some ⟨120, some 0⟩, status := TaskStatus.pending
    completion_note := none, completed_at := none
    telegram_chat_id := some "chat0"
    reminder_2h_sent := false, reminder_30m_sent := false, reminder_5m_sent := false }

/-- A second pending task, id 1, also 120 minutes from the deadline with a
valid chat id and clear flags. -/
def exTask1 : Task :=
  { exTask0 with id := 1, title := "reja", telegram_chat_id := some "chat1" }

/-- A cycle environment at time 0 whose channel always delivers and whose
store write fails exactly for task id 0. -/
def exEnvWriteFail : CycleEnvE :=
  { send := fun _ _ => true, nowAbs := 0
    readFails := false, writeFails := fun i => decide (i = 0) }

/-- A cycle environment at time 0 whose channel always delivers and whose
store never fails. -/
def exEnvClean : CycleEnvE :=
  { send := fun _ _ => true, nowAbs := 0
    readFails := false, writeFails := fun _ => false }

/-- The send event produced for `exTask0` by a cycle of `exEnvWriteFail`. -/
def exEv0 : SendEvent :=
  ⟨0, Threshold.t2h, "chat0", messageFor Threshold.t2h "hisobot", true⟩

/-- The send event produced for `exTask1` by a cycle of `exEnvWriteFail`. -/
def exEv1 : SendEvent :=
  ⟨1, Threshold.t2h, "chat1", messageFor Threshold.t2h "reja", true⟩

/-- Variant of `exTask0` with no notification address. -/
def exTaskNoChat : Task :=
  { exTask0 with telegram_chat_id := none }

/-- Variant of `exTask0` with all three reminder flags already set. -/
def exTaskAllSent : Task :=
  { exTask0 with
    reminder_2h_sent := true, reminder_30m_sent := true, reminder_5m_sent := true }

/-- A concrete edit form. -/
def exEdit : EditForm :=
  { title := "yangi nom", description := none, assigned_to := 3
    deadline := none, new_chat_id := some "chat9" }

lemma inWindow_t30m_not_t2h {m : Rat} (h : inWindow .t30m m = true) :
    inWindow .t2h m = false := by
  simp only [inWindow, decide_eq_true_eq] at h
  simp only [inWindow, decide_eq_false_iff_not, not_and]
  intro h2
  linarith [h.2]

lemma inWindow_t5m_not_t2h {m : Rat} (h : inWindow .t5m m = true) :
    inWindow .t2h m = false := by
  simp only [inWindow, decide_eq_true_eq] at h
  simp only [inWindow, decide_eq_false_iff_not, not_and]
  intro h2
  linarith [h.2]

lemma inWindow_t5m_not_t30m {m : Rat} (h : inWindow .t5m m = true) :
    inWindow .t30m m = false := by
  simp only [inWindow, decide_eq_true_eq] at h
  simp only [inWindow, decide_eq_false_iff_not, not_and]
  intro h2
  linarith [h.2]

lemma getFlag_eq_flagSel (t : Task) (T : Threshold) :
    getFlag t T = flagSel T t.reminder_2h_sent t.reminder_30m_sent t.reminder_5m_sent := by
  cases T <;> rfl

lemma getFlag_setFlag (t : Task) (T T' : Threshold) :
    getFlag (setFlag t T') T = (getFlag t T || decide (T = T')) := by
  cases T <;> cases T' <;> simp [getFlag, setFlag]

lemma classify_eq_some_iff (m : Rat) (b2 b30 b5 : Bool) (T : Threshold) :
    classify m b2 b30 b5 = some T ↔
      (inWindow T m = true ∧ flagSel T b2 b30 b5 = false) := by
  cases T with
  | t2h =>
    constructor
    · intro h
      unfold classify at h
      split_ifs at h with h1 h2 h3 <;> simp_all [flagSel]
    · rintro ⟨hw, hf⟩
      simp only [flagSel] at hf
      unfold classify
      simp [hw, hf]
  | t30m =>
    constructor
    · intro h
      unfold classify at h
      split_ifs at h with h1 h2 h3 <;> simp_all [flagSel]
    · rintro ⟨hw, hf⟩
      simp only [flagSel] at hf
      have h2f : inWindow .t2h m = false := inWindow_t30m_not_t2h hw
      unfold classify
      simp [h2f, hw, hf]
  | t5m =>
    constructor
    · intro h
      unfold classify at h
      split_ifs at h with h1 h2 h3 <;> simp_all [flagSel]
    · rintro ⟨hw, hf⟩
      simp only [flagSel] at hf
      have h2f : inWindow .t2h m = false := inWindow_t5m_not_t2h hw
      have h30f : inWindow .t30m m = false := inWindow_t5m_not_t30m hw
      unfold classify
      simp [h2f, h30f, hw, hf]

lemma stepTask_shape (env : CycleEnv) (t : Task) :
    stepTask env t = (t, []) ∨
    ∃ T chat dl,
      t.telegram_chat_id = some chat ∧ chat ≠ "" ∧ eligible t = true ∧
      t.deadline = some dl ∧
      classify (minutesLeft dl env.nowAbs)
        t.reminder_2h_sent t.reminder_30m_sent t.reminder_5m_sent = some T ∧
      stepTask env t =
        ((if env.send chat (messageFor T t.title) then setFlag t T else t),
         [⟨t.id, T, chat, messageFor T t.title,
           env.send chat (messageFor T t.title)⟩]) := by
  unfold stepTask
  by_cases he : eligible t
  · rcases hdl : t.deadline with _ | dl
    · left
      simp [processTask, hdl, he]
    · rcases hch : t.telegram_chat_id with _ | chat
      · left
        simp [processTask, hdl, hch, he]
      · by_cases hemp : chat = ""
        · left
          simp [processTask, hdl, hch, hemp, he]
        · rcases hcl : classify (minutesLeft dl env.nowAbs)
            t.reminder_2h_sent t.reminder_30m_sent t.reminder_5m_sent with _ | T
          · left
            simp [processTask, hdl, hch, hemp, hcl, he]
          · right
            refine ⟨T, chat, dl, rfl, hemp, he, rfl, hcl, ?_⟩
            simp [processTask, hdl, hch, hemp, hcl, he]
  · left
    simp [he]

lemma count_split (T : Threshold) (evs : List SendEvent) :
    countT T evs = countTFail T evs + countTSucc T evs := by
  unfold countT countTFail countTSucc
  induction evs with
  | nil => simp
  | cons e es ih =>
    simp only [List.countP_cons]
    cases he : e.ok <;> cases ht : decide (e.threshold = T) <;>
      simp [he, ht, ih] <;> omega

lemma step_flag_mono (env : CycleEnv) (t : Task) (T : Threshold)
    (h : getFlag t T = true) : getFlag (stepTask env t).1 T = true := by
  rcases stepTask_shape env t with hs | ⟨T', chat, dl, _, _, _, _, _, hs⟩
  · rw [hs]
    exact h
  · rw [hs]
    by_cases hok : env.send chat (messageFor T' t.title) = true
    · simp [hok, getFlag_setFlag, h]
    · simp only [Bool.not_eq_true] at hok
      simp [hok, h]

lemma step_no_T_event_of_flag (env : CycleEnv) (t : Task) (T : Threshold)
    (h : getFlag t T = true) : countT T (stepTask env t).2 = 0 := by
  rcases stepTask_shape env t with hs | ⟨T', chat, dl, _, _, _, _, hcl, hs⟩
  · rw [hs]
    rfl
  · rw [hs]
    have hflag : flagSel T' t.reminder_2h_sent t.reminder_30m_sent t.reminder_5m_sent = false :=
      ((classify_eq_some_iff _ _ _ _ _).mp hcl).2
    have hne : T' ≠ T := by
      intro hEq
      rw [getFlag_eq_flagSel, ← hEq, hflag] at h
      exact Bool.false_ne_true h
    simp [countT, List.countP_cons, hne]

lemma step_succ_flag (env : CycleEnv) (t : Task) (T : Threshold)
    (h : 0 < countTSucc T (stepTask env t).2) :
    getFlag (stepTask env t).1 T = true := by
  rcases stepTask_shape env t with hs | ⟨T', chat, dl, _, _, _, _, _, hs⟩
  · rw [hs] at h
    simp [countTSucc] at h
  · rw [hs] at h ⊢
    simp only [countTSucc, List.countP_cons, List.countP_nil] at h
    by_cases hok : env.send chat (messageFor T' t.title) = true
    · simp only [hok, Bool.and_true] at h
      by_cases hT : T' = T
      · subst hT
        simp [hok, getFlag_setFlag]
      · simp [hT] at h
    · simp only [Bool.not_eq_true] at hok
      simp [hok] at h

lemma step_succ_le_one (env : CycleEnv) (t : Task) (T : Threshold) :
    countTSucc T (stepTask env t).2 ≤ 1 := by
  rcases stepTask_shape env t with hs | ⟨T', chat, dl, _, _, _, _, _, hs⟩
  · rw [hs]
    simp [countTSucc]
  · rw [hs]
    simp only [countTSucc, List.countP_cons, List.countP_nil]
    split <;> omega

lemma runTask_flag_mono (envs : List CycleEnv) :
    ∀ t T, getFlag t T = true → getFlag (runTask envs t).1 T = true := by
  induction envs with
  | nil => intro t T h; exact h
  | cons e es ih =>
    intro t T h
    simp only [runTask]
    exact ih _ _ (step_flag_mono e t T h)

lemma runTask_succ_le (envs : List CycleEnv) :
    ∀ t T, countTSucc T (runTask envs t).2 ≤ (if getFlag t T = true then 0 else 1) := by
  induction envs with
  | nil =>
    intro t T
    simp only [runTask, countTSucc, List.countP_nil]
    split <;> omega
  | cons e es ih =>
    intro t T
    simp only [runTask, countTSucc, List.countP_append]
    have hsplit := count_split T (stepTask e t).2
    have hih := ih (stepTask e t).1 T
    by_cases hf : getFlag t T = true
    · have h1 : countT T (stepTask e t).2 = 0 := step_no_T_event_of_flag e t T hf
      have h2 : getFlag (stepTask e t).1 T = true := step_flag_mono e t T hf
      rw [if_pos h2] at hih
      rw [if_pos hf]
      simp only [countTSucc, countTFail, countT] at hsplit h1 hih ⊢
      omega
    · rw [if_neg hf]
      by_cases hs : 0 < countTSucc T (stepTask e t).2
      · have hflag := step_succ_flag e t T hs
        rw [if_pos hflag] at hih
        have hle := step_succ_le_one e t T
        simp only [countTSucc] at hle hih ⊢
        omega
      · push_neg at hs
        have h0 : countTSucc T (stepTask e t).2 = 0 := Nat.le_zero.mp hs
        have hb : (if getFlag (stepTask e t).1 T = true then 0 else 1) ≤ 1 := by
          split <;> omega
        simp only [countTSucc] at h0 hih ⊢
        omega

lemma eligible_iff (t : Task) :
    eligible t = true ↔ (t.status = TaskStatus.pending ∧ t.deadline.isSome = true) := by
  simp [eligible]

lemma step_fail_unchanged (env : CycleEnv) (t : Task)
    (h : ∀ e ∈ (stepTask env t).2, e.ok = false) : (stepTask env t).1 = t := by
  rcases stepTask_shape env t with hs | ⟨T', chat, dl, _, _, _, _, _, hs⟩
  · rw [hs]
  · rw [hs] at h ⊢
    have hev := h ⟨t.id, T', chat, messageFor T' t.title,
      env.send chat (messageFor T' t.title)⟩ (by simp)
    simp only at hev
    simp [hev]

lemma step_flag_iff (env : CycleEnv) (t : Task) (T : Threshold) :
    getFlag (stepTask env t).1 T = true ↔
      (getFlag t T = true ∨
       ∃ e ∈ (stepTask env t).2, e.threshold = T ∧ e.ok = true) := by
  rcases stepTask_shape env t with hs | ⟨T', chat, dl, _, _, _, _, _, hs⟩
  · rw [hs]
    simp
  · rw [hs]
    by_cases hok : env.send chat (messageFor T' t.title) = true
    · simp only [hok, if_true, getFlag_setFlag, Bool.or_eq_true, decide_eq_true_eq,
        List.mem_singleton, exists_eq_left, and_true]
      constructor
      · rintro (hf | hTT')
        · exact Or.inl hf
        · exact Or.inr hTT'.symm
      · rintro (hf | hTT')
        · exact Or.inl hf
        · exact Or.inr hTT'.symm
    · simp only [Bool.not_eq_true] at hok
      simp [hok]

lemma step_attempt_iff (env : CycleEnv) (t : Task) (T : Threshold) :
    (∃ e ∈ (stepTask env t).2, e.threshold = T) ↔
      (t.status = TaskStatus.pending ∧
       ∃ dl, t.deadline = some dl ∧
       ∃ chat, t.telegram_chat_id = some chat ∧ chat ≠ "" ∧
       inWindow T (minutesLeft dl env.nowAbs) = true ∧ getFlag t T = false) := by
  constructor
  · rintro ⟨e, he, hthr⟩
    rcases stepTask_shape env t with hs | ⟨T', chat, dl, hch, hemp, hel, hdl, hcl, hs⟩
    · rw [hs] at he
      cases he
    · rw [hs] at he
      rcases List.mem_singleton.mp he with rfl
      simp only at hthr
      subst hthr
      rcases (classify_eq_some_iff _ _ _ _ _).mp hcl with ⟨hw, hf⟩
      rcases (eligible_iff t).mp hel with ⟨hst, _⟩
      exact ⟨hst, dl, hdl, chat, hch, hemp, hw, by rw [getFlag_eq_flagSel]; exact hf⟩
  · rintro ⟨hst, dl, hdl, chat, hch, hemp, hw, hf⟩
    have hel : eligible t = true := by
      simp [eligible, hst, hdl]
    have hcl : classify (minutesLeft dl env.nowAbs)
        t.reminder_2h_sent t.reminder_30m_sent t.reminder_5m_sent = some T := by
      rw [classify_eq_some_iff]
      rw [getFlag_eq_flagSel] at hf
      exact ⟨hw, hf⟩
    refine ⟨⟨t.id, T, chat, messageFor T t.title,
      env.send chat (messageFor T t.title)⟩, ?_, rfl⟩
    simp [stepTask, processTask, hel, hdl, hch, hemp, hcl]

lemma classify_all_true (m : Rat) : classify m true true true = none := by
  unfold classify
  simp

lemma step_all_flags (env : CycleEnv) (t : Task)
    (h2 : t.reminder_2h_sent = true) (h30 : t.reminder_30m_sent = true)
    (h5 : t.reminder_5m_sent = true) : stepTask env t = (t, []) := by
  unfold stepTask
  by_cases hel : eligible t
  · rw [if_pos hel]
    unfold processTask
    rcases hdl : t.deadline with _ | dl
    · rfl
    · rcases hch : t.telegram_chat_id with _ | chat
      · rfl
      · by_cases hemp : chat = ""
        · simp [hemp]
        · simp [hemp, h2, h30, h5, classify_all_true]
  · rw [if_neg hel]

lemma step_events_le_one (env : CycleEnv) (t : Task) :
    ((stepTask env t).2).length ≤ 1 := by
  rcases stepTask_shape env t with hs | ⟨T', chat, dl, _, _, _, _, _, hs⟩ <;>
    rw [hs]
  · exact Nat.zero_le 1
  · exact Nat.le_refl 1

lemma op_flag_mono (t : Task) (op : TaskOp) (T : Threshold)
    (h : getFlag t T = true) : getFlag (applyOp t op) T = true := by
  cases op with
  | reminderCycle env => exact step_flag_mono env t T h
  | edit f => cases T <;> simpa [applyOp, edit_task, getFlag] using h
  | complete note completedAt =>
      cases T <;> simpa [applyOp, complete_task, getFlag] using h

lemma runCycleE_abort_head (env : CycleEnvE) (t : Task) (ts : List Task)
    (evs : List SendEvent) (hr : env.readFails = false)
    (h : stepTaskE env t = (evs, none)) :
    runCycleE env (t :: ts) = (t :: ts, evs, true) := by
  unfold runCycleE cycleBody
  rw [hr]
  simp [h]

lemma runLoopE_length (envs : List CycleEnvE) :
    ∀ tasks, ((runLoopE envs tasks).2).length = envs.length := by
  induction envs with
  | nil => intro tasks; rfl
  | cons e es ih =>
    intro tasks
    simp only [runLoopE, List.length_cons]
    rw [ih]

lemma guard_iterate (n : Nat) :
    start_reminder_thread^[n] guardInit =
      if n = 0 then guardInit else ⟨true, 1⟩ := by
  induction n with
  | zero => rfl
  | succ k ih =>
    rw [Function.iterate_succ_apply', ih]
    rcases Nat.eq_zero_or_pos k with hk | hk
    · subst hk
      rfl
    · rw [if_neg (Nat.pos_iff_ne_zero.mp hk), if_neg (Nat.succ_ne_zero k)]
      rfl

lemma step_send_false (env : CycleEnv) (t : Task)
    (hsend : ∀ c m, env.send c m = false) :
    (stepTask env t).1 = t ∧ ∀ e ∈ (stepTask env t).2, e.ok = false := by
  rcases stepTask_shape env t with hs | ⟨T', chat, dl, _, _, _, _, _, hs⟩
  · rw [hs]
    exact ⟨rfl, by intro e he; cases he⟩
  · rw [hs]
    refine ⟨by simp [hsend chat (messageFor T' t.title)], ?_⟩
    intro e he
    rcases List.mem_singleton.mp he with rfl
    simp [hsend]

lemma runTask_send_false (envs : List CycleEnv) :
    ∀ t, (∀ env ∈ envs, ∀ c m, env.send c m = false) →
      (runTask envs t).1 = t ∧
      (∀ e ∈ (runTask envs t).2, e.ok = false) ∧
      (runTask envs t).2 = (envs.map fun e => (stepTask e t).2).flatten := by
  induction envs with
  | nil =>
    intro t _
    refine ⟨rfl, ?_, rfl⟩
    intro e he
    cases he
  | cons e es ih =>
    intro t hsend
    have hse := step_send_false e t (hsend e (List.mem_cons_self e es))
    have hes : ∀ env ∈ es, ∀ c m, env.send c m = false := by
      intro env henv
      exact hsend env (List.mem_cons_of_mem e henv)
    rcases ih (stepTask e t).1 hes with ⟨ih1, ih2, ih3⟩
    refine ⟨?_, ?_, ?_⟩
    · simp only [runTask]
      rw [ih1, hse.1]
    · intro ev hev
      simp only [runTask, List.mem_append] at hev
      rcases hev with hev | hev
      · exact hse.2 ev hev
      · exact ih2 ev hev
    · simp only [runTask, List.map_cons, List.flatten_cons]
      rw [ih3, hse.1]

lemma exMinutes : minutesLeft ⟨120, some 0⟩ (0 : Rat) = 120 := by
  simp [minutesLeft, absMinutes, replaceTzIfNaive]

lemma inWindow_t2h_120 : inWindow .t2h (120 : Rat) = true := by
  simp only [inWindow, decide_eq_true_eq]
  norm_num

lemma exClassify : classify (120 : Rat) false false false = some .t2h := by
  rw [classify_eq_some_iff]
  exact ⟨inWindow_t2h_120, rfl⟩

lemma exStep0_eval : stepTaskE exEnvWriteFail exTask0 = ([exEv0], none) := by
  simp only [stepTaskE, eligible, exTask0, exEnvWriteFail, processTaskE, exMinutes,
    exClassify, exEv0]
  simp

lemma exStep1_attempt :
    ∃ e ∈ (stepTask (toEnv exEnvWriteFail) exTask1).2, e.threshold = Threshold.t2h := by
  rw [step_attempt_iff]
  refine ⟨rfl, ⟨120, some 0⟩, rfl, "chat1", rfl, by simp, ?_, rfl⟩
  simp only [toEnv, exEnvWriteFail, exMinutes]
  exact inWindow_t2h_120

lemma runTask_at_most_once (envs : List CycleEnv) (t : Task) (T : Threshold) :
    countT T (runTask envs t).2 ≤ countTFail T (runTask envs t).2 + 1 ∧
    countTSucc T (runTask envs t).2 ≤ 1 := by
  have hs := runTask_succ_le envs t T
  have hsplit := count_split T (runTask envs t).2
  have hs1 : countTSucc T (runTask envs t).2 ≤ 1 := by
    refine le_trans hs ?_
    split <;> omega
  exact ⟨by omega, hs1⟩

lemma stepTaskE_no_fail (env : CycleEnvE) (t : Task)
    (hw : ∀ i, env.writeFails i = false) :
    stepTaskE env t = ((stepTask (toEnv env) t).2, some (stepTask (toEnv env) t).1) := by
  unfold stepTaskE stepTask
  by_cases hel : eligible t
  · rw [if_pos hel, if_pos hel]
    unfold processTaskE processTask
    rcases hdl : t.deadline with _ | dl
    · rfl
    · rcases hch : t.telegram_chat_id with _ | chat
      · rfl
      · by_cases hemp : chat = ""
        · simp [hemp]
        · rcases hcl : classify (minutesLeft dl env.nowAbs)
            t.reminder_2h_sent t.reminder_30m_sent t.reminder_5m_sent with _ | T
          · simp [toEnv, hemp, hcl]
          · by_cases hok : env.send chat (messageFor T t.title) = true
            · simp [toEnv, hemp, hcl, hok, hw t.id]
            · simp only [Bool.not_eq_true] at hok
              simp [toEnv, hemp, hcl, hok]
  · rw [if_neg hel, if_neg hel]

lemma runCycleE_single_no_fail (env : CycleEnvE) (t : Task)
    (hr : env.readFails = false) (hw : ∀ i, env.writeFails i = false) :
    runCycleE env [t] =
      ([(stepTask (toEnv env) t).1], (stepTask (toEnv env) t).2, false) := by
  have hb := stepTaskE_no_fail env t hw
  unfold runCycleE cycleBody
  rw [hr]
  simp [hb, cycleBody]

lemma runLoopE_single_no_fail (envs : List CycleEnvE) :
    ∀ t, (∀ env ∈ envs, env.readFails = false ∧ ∀ i, env.writeFails i = false) →
      (runLoopE envs [t]).1 = [(runTask (envs.map toEnv) t).1] ∧
      ((runLoopE envs [t]).2.map Prod.fst).flatten = (runTask (envs.map toEnv) t).2 := by
  induction envs with
  | nil => intro t _; exact ⟨rfl, rfl⟩
  | cons e es ih =>
    intro t hnf
    have he := hnf e (List.mem_cons_self e es)
    have hes : ∀ env ∈ es, env.readFails = false ∧ ∀ i, env.writeFails i = false :=
      fun env henv => hnf env (List.mem_cons_of_mem e henv)
    have hc := runCycleE_single_no_fail e t he.1 he.2
    rcases ih (stepTask (toEnv e) t).1 hes with ⟨ih1, ih2⟩
    constructor
    · simp only [runLoopE, hc, List.map_cons, runTask]
      exact ih1
    · simp only [runLoopE, hc, List.map_cons, List.flatten_cons, runTask]
      rw [ih2]

lemma cycleBody_abort (env : CycleEnvE) :
    ∀ (pre : List Task) (t : Task) (ts : List Task) (evs : List SendEvent),
      (∀ u ∈ pre, ((stepTaskE env u).2).isSome = true) →
      stepTaskE env t = (evs, none) →
      (cycleBody env (pre ++ t :: ts)).2.1 =
        (pre.map fun u => (stepTaskE env u).1).flatten ++ evs ∧
      (cycleBody env (pre ++ t :: ts)).2.2 = true := by
  intro pre
  induction pre with
  | nil =>
    intro t ts evs _ h
    simp [cycleBody, h]
  | cons u pre ih =>
    intro t ts evs hpre h
    have hu := hpre u (List.mem_cons_self u pre)
    obtain ⟨evsU, ou, hSE⟩ : ∃ evsU ou, stepTaskE env u = (evsU, ou) :=
      ⟨(stepTaskE env u).1, (stepTaskE env u).2, Prod.mk.eta.symm⟩
    rw [hSE] at hu
    rcases Option.isSome_iff_exists.mp hu with ⟨u1, rfl⟩
    have hrest := ih t ts evs
      (fun v hv => hpre v (List.mem_cons_of_mem u hv)) h
    simp only [List.cons_append, cycleBody, hSE, List.map_cons, List.flatten_cons,
      List.append_eq]
    exact ⟨by rw [hrest.1, List.append_assoc], hrest.2⟩

lemma runCycleE_abort_mid (env : CycleEnvE) (pre : List Task) (t : Task)
    (ts : List Task) (evs : List SendEvent) (hr : env.readFails = false)
    (hpre : ∀ u ∈ pre, ((stepTaskE env u).2).isSome = true)
    (h : stepTaskE env t = (evs, none)) :
    runCycleE env (pre ++ t :: ts) =
      (pre ++ t :: ts, (pre.map fun u => (stepTaskE env u).1).flatten ++ evs, true) := by
  rcases cycleBody_abort env pre t ts evs hpre h with ⟨h1, h2⟩
  unfold runCycleE
  rw [hr]
  simp [h2, h1]

lemma exStep0_evalClean :
    stepTaskE exEnvClean exTask0 = ([exEv0], some (setFlag exTask0 Threshold.t2h)) := by
  simp only [stepTaskE, eligible, exTask0, exEnvClean, processTaskE, exMinutes,
    exClassify, exEv0, setFlag]
  simp

lemma exStep1_evalE :
    stepTaskE exEnvWriteFail exTask1 = ([exEv1], some (setFlag exTask1 Threshold.t2h)) := by
  simp only [stepTaskE, eligible, exTask1, exTask0, exEnvWriteFail, processTaskE,
    exMinutes, exClassify, exEv1, setFlag]
  simp

lemma exLoop_two_sends :
    ((runLoopE [exEnvWriteFail, exEnvClean] [exTask0]).2.map Prod.fst).flatten =
      [exEv0, exEv0] := by
  have h1 : runCycleE exEnvWriteFail [exTask0] = ([exTask0], [exEv0], true) :=
    runCycleE_abort_head exEnvWriteFail exTask0 [] [exEv0] rfl exStep0_eval
  have h2 : runCycleE exEnvClean [exTask0] =
      ([setFlag exTask0 Threshold.t2h], [exEv0], false) := by
    have hr : exEnvClean.readFails = false := rfl
    simp [runCycleE, cycleBody, exStep0_evalClean, hr]
  simp [runLoopE, h1, h2]

/-- C1 counterexample: the at-most-once claim fails across cycles when a
store failure aborts a cycle after a successful send.  Concretely: one
in-window task with a valid address; in cycle one the channel delivers but
the flag UPDATE raises, so the cycle aborts before commit and the flag is
discarded; in cycle two the same threshold is delivered again.  The trace
holds two successful 2h sends and no failed attempt — send was invoked
twice, exceeding failed attempts plus one, and a send occurred after the
first send that returned true. -/
theorem claim_C1_counterexample :
    countT Threshold.t2h
      (((runLoopE [exEnvWriteFail, exEnvClean] [exTask0]).2.map Prod.fst).flatten) = 2 ∧
    countTFail Threshold.t2h
      (((runLoopE [exEnvWriteFail, exEnvClean] [exTask0]).2.map Prod.fst).flatten) = 0 ∧
    countTSucc Threshold.t2h
      (((runLoopE [exEnvWriteFail, exEnvClean] [exTask0]).2.map Prod.fst).flatten) = 2 := by
  simp only [exLoop_two_sends]
  simp [countT, countTFail, countTSucc, exEv0]

/-- C1 (amended): for every task and every threshold T, across any number
of scheduler cycles none of which is aborted by a store failure (every
cycle reaches its commit), the channel's `send` is invoked for T at most
once more than the number of failed attempts, and at most one of those
invocations succeeds — after the first send that returns true, no further
send for T occurs for that task. -/
theorem claim_C1_committed_cycles (envs : List CycleEnvE) (t : Task) (T : Threshold)
    (hnf : ∀ env ∈ envs, env.readFails = false ∧ ∀ i, env.writeFails i = false) :
    countT T (((runLoopE envs [t]).2.map Prod.fst).flatten) ≤
      countTFail T (((runLoopE envs [t]).2.map Prod.fst).flatten) + 1 ∧
    countTSucc T (((runLoopE envs [t]).2.map Prod.fst).flatten) ≤ 1 := by
  rcases runLoopE_single_no_fail envs t hnf with ⟨-, h2⟩
  rw [h2]
  exact runTask_at_most_once (envs.map toEnv) t T

/-- C1 witness: the amended bound at a concrete committed cycle over the
in-window task. -/
theorem claim_C1_witness :
    countT Threshold.t2h (((runLoopE [exEnvClean] [exTask0]).2.map Prod.fst).flatten) ≤
      countTFail Threshold.t2h
        (((runLoopE [exEnvClean] [exTask0]).2.map Prod.fst).flatten) + 1 ∧
    countTSucc Threshold.t2h
      (((runLoopE [exEnvClean] [exTask0]).2.map Prod.fst).flatten) ≤ 1 :=
  claim_C1_committed_cycles [exEnvClean] exTask0 Threshold.t2h
    (fun env henv => by
      rcases List.mem_singleton.mp henv with rfl
      exact ⟨rfl, fun i => rfl⟩)

/-- C2: the threshold classification uses exactly the closed windows
[115,125] for 2h, [25,35] for 30m, [3,7] for 5m (each also requiring its
flag to be unset), the windows are mutually exclusive, at most one
notification is produced per task per cycle, and on the concrete inputs:
120 and 124.9 match 2h, 126 matches none, 30 matches only 30m. -/
theorem claim_C2_window_classification (m : Rat) (b2 b30 b5 : Bool)
    (env : CycleEnv) (t : Task) :
    (classify m b2 b30 b5 = some .t2h ↔ (115 ≤ m ∧ m ≤ 125 ∧ b2 = false)) ∧
    (classify m b2 b30 b5 = some .t30m ↔ (25 ≤ m ∧ m ≤ 35 ∧ b30 = false)) ∧
    (classify m b2 b30 b5 = some .t5m ↔ (3 ≤ m ∧ m ≤ 7 ∧ b5 = false)) ∧
    (inWindow .t2h m && inWindow .t30m m) = false ∧
    (inWindow .t2h m && inWindow .t5m m) = false ∧
    (inWindow .t30m m && inWindow .t5m m) = false ∧
    classify (120 : Rat) false false false = some .t2h ∧
    classify (1249 / 10 : Rat) false false false = some .t2h ∧
    classify (126 : Rat) b2 b30 b5 = none ∧
    classify (30 : Rat) false false false = some .t30m ∧
    inWindow .t2h (30 : Rat) = false ∧
    ((stepTask env t).2).length ≤ 1 := by
  have hiff : ∀ T f2 f30 f5, classify m f2 f30 f5 = some T ↔
      (inWindow T m = true ∧ flagSel T f2 f30 f5 = false) :=
    fun T f2 f30 f5 => classify_eq_some_iff m f2 f30 f5 T
  refine ⟨?_, ?_, ?_, ?_, ?_, ?_, ?_, ?_, ?_, ?_, ?_, step_events_le_one env t⟩
  · rw [hiff]
    simp only [inWindow, decide_eq_true_eq, flagSel]
    tauto
  · rw [hiff]
    simp only [inWindow, decide_eq_true_eq, flagSel]
    tauto
  · rw [hiff]
    simp only [inWindow, decide_eq_true_eq, flagSel]
    tauto
  · by_cases h : inWindow .t30m m = true
    · simp [inWindow_t30m_not_t2h h]
    · simp only [Bool.not_eq_true] at h
      simp [h]
  · by_cases h : inWindow .t5m m = true
    · simp [inWindow_t5m_not_t2h h]
    · simp only [Bool.not_eq_true] at h
      simp [h]
  · by_cases h : inWindow .t5m m = true
    · simp [inWindow_t5m_not_t30m h]
    · simp only [Bool.not_eq_true] at h
      simp [h]
  · exact exClassify
  · rw [classify_eq_some_iff]
    refine ⟨?_, rfl⟩
    simp only [inWindow, decide_eq_true_eq]
    norm_num
  · have h2 : inWindow .t2h (126 : Rat) = false := by
      simp only [inWindow, decide_eq_false_iff_not, not_and]
      intro h
      norm_num
    have h30 : inWindow .t30m (126 : Rat) = false := by
      simp only [inWindow, decide_eq_false_iff_not, not_and]
      intro h
      norm_num
    have h5 : inWindow .t5m (126 : Rat) = false := by
      simp only [inWindow, decide_eq_false_iff_not, not_and]
      intro h
      norm_num
    unfold classify
    simp [h2, h30, h5]
  · rw [classify_eq_some_iff]
    refine ⟨?_, rfl⟩
    simp only [inWindow, decide_eq_true_eq]
    norm_num
  · simp only [inWindow, decide_eq_false_iff_not, not_and]
    intro h
    norm_num at h

/-- C3: a sent-flag becomes true exactly when the delivery call of the same
cycle returned true (otherwise it keeps its value); when every send of the
cycle failed the task record is unchanged; and a threshold T is attempted
in a cycle exactly when the task is pending with a deadline, has a
non-empty address, its `minutes_left` lies in T's window and T's flag is
still false — so a failed attempt is repeated on the next cycle as long as
those conditions persist. -/
theorem claim_C3_flag_only_on_success (env : CycleEnv) (t : Task) (T : Threshold) :
    ((∀ e ∈ (stepTask env t).2, e.ok = false) → (stepTask env t).1 = t) ∧
    (getFlag (stepTask env t).1 T = true ↔
      (getFlag t T = true ∨
       ∃ e ∈ (stepTask env t).2, e.threshold = T ∧ e.ok = true)) ∧
    ((∃ e ∈ (stepTask env t).2, e.threshold = T) ↔
      (t.status = TaskStatus.pending ∧
       ∃ dl, t.deadline = some dl ∧
       ∃ chat, t.telegram_chat_id = some chat ∧ chat ≠ "" ∧
       inWindow T (minutesLeft dl env.nowAbs) = true ∧ getFlag t T = false)) :=
  ⟨step_fail_unchanged env t, step_flag_iff env t T, step_attempt_iff env t T⟩

/-- C3 witness: with a channel that always fails, a cycle leaves the
concrete in-window task unchanged. -/
theorem claim_C3_witness :
    (stepTask ⟨fun _ _ => false, (0 : Rat)⟩ exTask0).1 = exTask0 :=
  (claim_C3_flag_only_on_success ⟨fun _ _ => false, (0 : Rat)⟩ exTask0 Threshold.t2h).1
    (fun e he => (step_send_false ⟨fun _ _ => false, (0 : Rat)⟩ exTask0
      (fun _ _ => rfl)).2 e he)

/-- C4 counterexample: with two in-window tasks and a store write that
raises on the first one, the cycle records an error but produces no send
for the second task, even though processing it would have produced a
2-hour attempt — the cycle does not proceed to the remaining tasks. -/
theorem claim_C4_counterexample :
    (runCycleE exEnvWriteFail [exTask0, exTask1]).2.2 = true ∧
    ((runCycleE exEnvWriteFail [exTask0, exTask1]).2.1).countP
      (fun e => decide (e.taskId = 1)) = 0 ∧
    (∃ e ∈ (stepTask (toEnv exEnvWriteFail) exTask1).2,
      e.threshold = Threshold.t2h) := by
  have hrun : runCycleE exEnvWriteFail [exTask0, exTask1] =
      ([exTask0, exTask1], [exEv0], true) :=
    runCycleE_abort_head exEnvWriteFail exTask0 [exTask1] [exEv0] rfl exStep0_eval
  refine ⟨by rw [hrun], ?_, exStep1_attempt⟩
  rw [hrun]
  simp [exEv0]

/-- C4 (amended): when the body of one task — at any position `pre ++ t :: ts`
of the cycle's task list — raises an unexpected error, the error is caught
and logged (the cycle's error flag), the remainder of that cycle is skipped
(the tasks after the failing one produce no events), and the whole cycle's
uncommitted flag updates are discarded: the earlier tasks of the cycle were
processed (their send events stand in the trace) yet the task table is
returned exactly as it was; and the scan loop itself continues, completing
every prescribed cycle. -/
theorem claim_C4_cycle_aborts_loop_continues (envs : List CycleEnvE)
    (tasks : List Task) (env : CycleEnvE) (pre : List Task) (t : Task)
    (ts : List Task) (evs : List SendEvent) (hr : env.readFails = false)
    (hpre : ∀ u ∈ pre, ((stepTaskE env u).2).isSome = true)
    (h : stepTaskE env t = (evs, none)) :
    ((runLoopE envs tasks).2).length = envs.length ∧
    runCycleE env (pre ++ t :: ts) =
      (pre ++ t :: ts, (pre.map fun u => (stepTaskE env u).1).flatten ++ evs, true) :=
  ⟨runLoopE_length envs tasks, runCycleE_abort_mid env pre t ts evs hr hpre h⟩

/-- C4 witness: the amended statement at a concrete cycle whose second task
fails after the first task's send succeeded — the first task's executed
flag update is discarded while its send event remains in the trace. -/
theorem claim_C4_witness :
    runCycleE exEnvWriteFail ([exTask1] ++ exTask0 :: []) =
      ([exTask1] ++ exTask0 :: [],
       (([exTask1].map fun u => (stepTaskE exEnvWriteFail u).1).flatten) ++ [exEv0],
       true) :=
  (claim_C4_cycle_aborts_loop_continues [] [] exEnvWriteFail [exTask1] exTask0 []
    [exEv0] rfl
    (fun u hu => by
      rcases List.mem_singleton.mp hu with rfl
      rw [exStep1_evalE]
      rfl)
    exStep0_eval).2

/-- C5: each sent-flag is monotonic over a task record's lifetime: once
true, it stays true under any sequence of scheduler cycles, edits and
completions. -/
theorem claim_C5_flags_monotone (ops : List TaskOp) (t : Task) (T : Threshold)
    (h : getFlag t T = true) : getFlag (applyOps t ops) T = true := by
  induction ops generalizing t with
  | nil => exact h
  | cons op rest ih => exact ih (applyOp t op) (op_flag_mono t op T h)

/-- C5 witness: the 2h flag survives an edit followed by completion and a
scheduler cycle. -/
theorem claim_C5_witness :
    getFlag (applyOps (setFlag exTask0 Threshold.t2h)
      [TaskOp.edit exEdit, TaskOp.complete none ⟨0, none⟩,
       TaskOp.reminderCycle ⟨fun _ _ => true, 0⟩]) Threshold.t2h = true :=
  claim_C5_flags_monotone
    [TaskOp.edit exEdit, TaskOp.complete none ⟨0, none⟩,
     TaskOp.reminderCycle ⟨fun _ _ => true, 0⟩]
    (setFlag exTask0 Threshold.t2h) Threshold.t2h rfl

/-- C6: a pending task whose assignee has no notification address (NULL or
empty chat id) is skipped silently: no send attempt, no flag change. -/
theorem claim_C6_no_address_no_attempt (env : CycleEnv) (t : Task)
    (h : t.telegram_chat_id = none ∨ t.telegram_chat_id = some "") :
    stepTask env t = (t, []) := by
  unfold stepTask
  by_cases hel : eligible t
  · rw [if_pos hel]
    unfold processTask
    rcases hdl : t.deadline with _ | dl
    · rcases h with h | h <;> rw [h]
    · rcases h with h | h <;> rw [h]
      simp
  · rw [if_neg hel]

/-- C6 witness: the concrete pending in-window task with a NULL chat id is
left untouched with no events. -/
theorem claim_C6_witness :
    stepTask ⟨fun _ _ => true, (0 : Rat)⟩ exTaskNoChat = (exTaskNoChat, []) :=
  claim_C6_no_address_no_attempt ⟨fun _ _ => true, (0 : Rat)⟩ exTaskNoChat
    (Or.inl rfl)

/-- C7: a timezone-less deadline is interpreted in the fixed UTC+5 zone,
for `minutes_left` and for the overdue classification alike, and this
differs from interpreting it in any other host zone. -/
theorem claim_C7_naive_deadline_uzb (w nowAbs : Rat) (hostOffset : Int)
    (hne : hostOffset ≠ UZB_TZ_OFFSET_MINUTES) :
    minutesLeft ⟨w, none⟩ nowAbs =
      (w - ((UZB_TZ_OFFSET_MINUTES : Int) : Rat)) - nowAbs ∧
    minutesLeft ⟨w, none⟩ nowAbs =
      minutesLeftHostZone UZB_TZ_OFFSET_MINUTES ⟨w, none⟩ nowAbs ∧
    minutesLeft ⟨w, none⟩ nowAbs ≠
      minutesLeftHostZone hostOffset ⟨w, none⟩ nowAbs ∧
    is_overdue (some ⟨w, none⟩) nowAbs =
      decide (w - ((UZB_TZ_OFFSET_MINUTES : Int) : Rat) < nowAbs) := by
  have hml : minutesLeft ⟨w, none⟩ nowAbs =
      (w - ((UZB_TZ_OFFSET_MINUTES : Int) : Rat)) - nowAbs := by
    simp [minutesLeft, absMinutes, replaceTzIfNaive]
  refine ⟨hml, ?_, ?_, ?_⟩
  · rw [hml]
    simp [minutesLeftHostZone]
  · rw [hml]
    simp only [minutesLeftHostZone, Option.getD_none]
    intro heq
    apply hne
    have hcast : ((hostOffset : Int) : Rat) = ((UZB_TZ_OFFSET_MINUTES : Int) : Rat) := by
      linarith
    exact_mod_cast hcast
  · simp [is_overdue, absMinutes, replaceTzIfNaive]

/-- C7 witness: at the concrete host offset 0 (UTC), the two
interpretations of a naive deadline disagree. -/
theorem claim_C7_witness :
    minutesLeft ⟨0, none⟩ (0 : Rat) ≠ minutesLeftHostZone 0 ⟨0, none⟩ (0 : Rat) :=
  (claim_C7_naive_deadline_uzb 0 0 0 (by decide)).2.2.1

/-- C8: a scan cycle over a task set whose flags are all already true
performs no notification attempt and leaves every task unchanged. -/
theorem claim_C8_all_sent_idempotent (env : CycleEnv) :
    ∀ tasks : List Task,
      (∀ t ∈ tasks, t.reminder_2h_sent = true ∧ t.reminder_30m_sent = true ∧
        t.reminder_5m_sent = true) →
      runCycle env tasks = (tasks, []) := by
  intro tasks
  induction tasks with
  | nil => intro _; rfl
  | cons t ts ih =>
    intro h
    have ht := h t (List.mem_cons_self t ts)
    have hstep := step_all_flags env t ht.1 ht.2.1 ht.2.2
    have hts := ih (fun u hu => h u (List.mem_cons_of_mem t hu))
    simp only [runCycle, List.map_cons, List.flatten_cons, Prod.mk.injEq] at hts ⊢
    have h1 : (stepTask env t).1 = t := by rw [hstep]
    have h2 : (stepTask env t).2 = [] := by rw [hstep]
    rw [h1, h2, hts.1, hts.2]
    simp

/-- C8 witness: a cycle over the concrete all-sent task set does nothing. -/
theorem claim_C8_witness :
    runCycle ⟨fun _ _ => true, (0 : Rat)⟩ [exTaskAllSent] = ([exTaskAllSent], []) :=
  claim_C8_all_sent_idempotent ⟨fun _ _ => true, (0 : Rat)⟩ [exTaskAllSent]
    (fun u hu => by
      rcases List.mem_singleton.mp hu with rfl
      exact ⟨rfl, rfl, rfl⟩)

/-- C9: with the lock serialising each caller's check-then-set critical
section, any number of invocations of the startup guard from process start
leaves exactly one scheduler loop started (none only when it was never
called), and the started boolean is set exactly from the first call on. -/
theorem claim_C9_single_start (n : Nat) :
    (start_reminder_thread^[n] guardInit).loopsStarted = min 1 n ∧
    ((start_reminder_thread^[n] guardInit).reminder_thread_started =
      decide (1 ≤ n)) := by
  rw [guard_iterate]
  cases n with
  | zero => simp [guardInit]
  | succ k =>
    rw [if_neg (Nat.succ_ne_zero k)]
    constructor
    · have : min 1 (k + 1) = 1 := by omega
      rw [this]
    · have : decide (1 ≤ k + 1) = true := decide_eq_true (by omega)
      rw [this]

/-- C10: with an empty bot token or an empty destination the send function
returns false without any network request; consequently, with no token
configured, any number of scheduler cycles never changes any task, every
recorded attempt is a failure, and the same attempts recur cycle by cycle
(the trace is exactly the per-cycle attempts against the unchanged task). -/
theorem claim_C10_empty_token_never_sends
    (post : String → String → Option Nat) (token : String) (chat msg : String)
    (nows : List Rat) (t : Task) :
    send_telegram_message "" post chat msg = (false, 0) ∧
    send_telegram_message token post "" msg = (false, 0) ∧
    (runTask (nows.map fun n => ⟨sendVia "" post, n⟩) t).1 = t ∧
    (∀ e ∈ (runTask (nows.map fun n => ⟨sendVia "" post, n⟩) t).2, e.ok = false) ∧
    (runTask (nows.map fun n => ⟨sendVia "" post, n⟩) t).2 =
      ((nows.map fun n => (⟨sendVia "" post, n⟩ : CycleEnv)).map
        fun e => (stepTask e t).2).flatten := by
  have hsend : ∀ env ∈ nows.map (fun n => (⟨sendVia "" post, n⟩ : CycleEnv)),
      ∀ c m, env.send c m = false := by
    intro env henv c m
    rcases List.mem_map.mp henv with ⟨n, _, rfl⟩
    simp [sendVia, send_telegram_message]
  rcases runTask_send_false (nows.map fun n => ⟨sendVia "" post, n⟩) t hsend with
    ⟨ha, hb, hc⟩
  exact ⟨by simp [send_telegram_message], by simp [send_telegram_message], ha, hb, hc⟩

/-- C10 witness: one tokenless cycle over the concrete in-window task
leaves it unchanged. -/
theorem claim_C10_witness :
    (runTask ([(0 : Rat)].map fun n => ⟨sendVia "" (fun _ _ => some 200), n⟩)
      exTask0).1 = exTask0 :=
  (claim_C10_empty_token_never_sends (fun _ _ => some 200) "tok" "c" "m"
    [(0 : Rat)] exTask0).2.2.1

end CRM
